import Mathlib

/-!
Verification of the otterlang Debian packaging script (package/src/build.py).

The script is a linear sequence of filesystem operations: it optionally clears
a staging directory after an interactive prompt, creates the staging directory
if missing, stops early when the release binary is absent, copies the binary
and four metadata files into the staging directory, and finally invokes the
external dpkg-deb archiver without inspecting its exit status.

We embed the script shallowly: the filesystem is a map from paths to entries,
each shell command becomes a function on that map, and the external archiver
is an opaque parameter supplying its filesystem effect and its (discarded)
exit status.
-/

namespace OtterPkg

/-- Filesystem paths are lists of name components, from the root down. -/
abbrev Path := List String

/-- A filesystem entry: a directory, or a file with its byte contents. -/
inductive Entry where
  | dir : Entry
  | file : List Nat → Entry
deriving DecidableEq

/-- A filesystem maps each path to the entry stored there, if any. -/
abbrev FS := Path → Option Entry

/-- Does `p` name an initial segment of `q`, i.e. does `q` lie at or below `p`? -/
def subpath : Path → Path → Bool
  | [], _ => true
  | _ :: _, [] => false
  | a :: as, b :: bs => a == b && subpath as bs

/-- Embedding of `os.path.exists`. -/
def pathExists (fs : FS) (p : Path) : Bool := (fs p).isSome

/-- Store entry `e` at path `p`, leaving every other path unchanged. -/
def setEntry (fs : FS) (p : Path) (e : Entry) : FS :=
  fun q => if q = p then some e else fs q

/-- Embedding of `os.mkdir p`. -/
def mkdirFS (fs : FS) (p : Path) : FS := setEntry fs p Entry.dir

/-- Embedding of `os.system(f'rm -r {p}')`: removes `p` and everything below it. -/
def rmTree (fs : FS) (p : Path) : FS :=
  fun q => if subpath p q then none else fs q

/-- Embedding of `os.system(f'cp {src} {dstDir}')` for a destination directory:
the file at `src` is copied verbatim to `dstDir/basename(src)`; when `src` is
not a file the command fails and, its status being discarded, the filesystem
is unchanged. -/
def cpInto (fs : FS) (src : Path) (dstDir : Path) : FS :=
  match fs src with
  | some (Entry.file b) => setEntry fs (dstDir ++ [src.getLastD ""]) (Entry.file b)
  | _ => fs

/-- Absolute path of the script itself (`this_file` in build.py). -/
def this_file : Path := ["otterlang", "package", "src", "build.py"]

/-- Path.parent in build.py: drop the last component. -/
def parentPath (p : Path) : Path := p.dropLast

/-- `otter_deb_path`: the staging directory `../otterlang/DEBIAN`. -/
def otter_deb_path : Path :=
  parentPath (parentPath this_file) ++ ["otterlang", "DEBIAN"]

/-- `otter_bin_path`: the release binary `../../target/release/otter`. -/
def otter_bin_path : Path :=
  parentPath (parentPath (parentPath this_file)) ++ ["target", "release", "otter"]

/-- Source path of the `control` metadata file. -/
def controlSrc : Path := parentPath (parentPath this_file) ++ ["control"]

/-- Source path of the `changelog` metadata file. -/
def changelogSrc : Path := parentPath (parentPath this_file) ++ ["changelog"]

/-- Source path of the `copyright` metadata file. -/
def copyrightSrc : Path := parentPath (parentPath this_file) ++ ["copyright"]

/-- Source path of the `rules` metadata file. -/
def rulesSrc : Path := parentPath (parentPath this_file) ++ ["rules"]

/-- The `bin` subdirectory of the staging directory. -/
def binDirPath : Path := otter_deb_path ++ ["bin"]

/-- The copied binary `bin/otter` inside the staging directory. -/
def binOtterPath : Path := binDirPath ++ ["otter"]

/-- The copied `control` file inside the staging directory. -/
def debControlPath : Path := otter_deb_path ++ ["control"]

/-- The copied `changelog` file inside the staging directory. -/
def debChangelogPath : Path := otter_deb_path ++ ["changelog"]

/-- The copied `copyright` file inside the staging directory. -/
def debCopyrightPath : Path := otter_deb_path ++ ["copyright"]

/-- The copied `rules` file inside the staging directory. -/
def debRulesPath : Path := otter_deb_path ++ ["rules"]

/-- The output archive `../otterlang.deb`. -/
def outPath : Path := parentPath (parentPath this_file) ++ ["otterlang.deb"]

/-- The five paths written by the population step. -/
def targetPaths : List Path :=
  [binDirPath, binOtterPath, debControlPath, debChangelogPath,
   debCopyrightPath, debRulesPath]

/-- The status message printed first. -/
def willCreateMsg : String := "Will create at " ++ String.intercalate "/" otter_deb_path

/-- The interactive prompt shown when the staging directory already exists. -/
def promptMsg : String := "An output appears to already exist. Clear it? [y/N]: "

/-- The message printed when the release binary is absent. -/
def missingMsg : String := "First you need to build the binaries"

/-- Embedding of the affirmative-response test `clear.lower() == 'y'`. -/
def affirm (resp : String) : Bool := resp.toLower == "y"

/-- Lines 6-9 of build.py: when the staging directory exists and the prompt
response is affirmative, recursively delete it. -/
def phase_clear (fs : FS) (resp : String) : FS :=
  if pathExists fs otter_deb_path && affirm resp then rmTree fs otter_deb_path else fs

/-- Lines 11-14 of build.py: if the staging directory is missing, create its
parent when that is missing too, then create the staging directory. -/
def phase_create (fs : FS) : FS :=
  if pathExists fs otter_deb_path then fs
  else
    mkdirFS
      (if pathExists fs (parentPath otter_deb_path) then fs
       else mkdirFS fs (parentPath otter_deb_path))
      otter_deb_path

/-- Line 21-22 of build.py: create the `bin` subdirectory if absent. -/
def popStep1 (fs : FS) : FS :=
  if pathExists fs binDirPath then fs else mkdirFS fs binDirPath

/-- Line 24: copy the release binary into `bin`. -/
def popStep2 (fs : FS) : FS := cpInto (popStep1 fs) otter_bin_path binDirPath

/-- Line 25: copy `control` into the staging directory. -/
def popStep3 (fs : FS) : FS := cpInto (popStep2 fs) controlSrc otter_deb_path

/-- Line 26: copy `changelog` into the staging directory. -/
def popStep4 (fs : FS) : FS := cpInto (popStep3 fs) changelogSrc otter_deb_path

/-- Line 27: copy `copyright` into the staging directory. -/
def popStep5 (fs : FS) : FS := cpInto (popStep4 fs) copyrightSrc otter_deb_path

/-- Lines 21-28 of build.py: the whole population step. -/
def phase_populate (fs : FS) : FS := cpInto (popStep5 fs) rulesSrc otter_deb_path

/-- The observable outcome of one run of the script. -/
structure RunResult where
  fs : FS
  output : List String
  exitedEarly : Bool
  exitStatus : Nat
  archiverInvoked : Bool

/-- Embedding of the whole script. `resp` is the stdin line read when the
staging directory already exists; `arch` gives the filesystem effect and the
exit status of the external `dpkg-deb` invocation, whose status the script
discards (`os.system` return value unused). -/
def run (fs0 : FS) (resp : String) (arch : FS → FS × Nat) : RunResult :=
  if pathExists (phase_create (phase_clear fs0 resp)) otter_bin_path then
    { fs := (arch (phase_populate (phase_create (phase_clear fs0 resp)))).1,
      output := if pathExists fs0 otter_deb_path then [willCreateMsg, promptMsg]
                else [willCreateMsg],
      exitedEarly := false, exitStatus := 0, archiverInvoked := true }
  else
    { fs := phase_create (phase_clear fs0 resp),
      output := (if pathExists fs0 otter_deb_path then [willCreateMsg, promptMsg]
                 else [willCreateMsg]) ++ [missingMsg],
      exitedEarly := true, exitStatus := 0, archiverInvoked := false }

/-- A filesystem with only the sources present: the release binary, the four
metadata files and the package directory. Used as a concrete fresh state. -/
def fsFresh : FS := fun q =>
  if q = otter_bin_path then some (Entry.file [7])
  else if q = controlSrc then some (Entry.file [1])
  else if q = changelogSrc then some (Entry.file [2])
  else if q = copyrightSrc then some (Entry.file [3])
  else if q = rulesSrc then some (Entry.file [4])
  else if q = parentPath (parentPath this_file) then some Entry.dir
  else none

/-- A concrete archiver that writes the output archive and succeeds. -/
def archOk : FS → FS × Nat := fun f => (setEntry f outPath (Entry.file [9]), 0)

/-- A concrete archiver with the same filesystem effect that fails. -/
def archBad : FS → FS × Nat := fun f => (setEntry f outPath (Entry.file [9]), 2)

/-- A filesystem with sources present, the staging directory already populated
and one stale unrelated file inside it. -/
def fsStale : FS := fun q =>
  if q = otter_deb_path then some Entry.dir
  else if q = otter_deb_path ++ ["stale"] then some (Entry.file [5])
  else if q = binDirPath then some Entry.dir
  else if q = binOtterPath then some (Entry.file [6])
  else fsFresh q

/-- A filesystem holding nothing at all: in particular no release binary. -/
def fsEmpty : FS := fun _ => none

section BasicLemmas

theorem setEntry_same (fs : FS) (p : Path) (e : Entry) : setEntry fs p e p = some e := by
  simp [setEntry]

theorem setEntry_other (fs : FS) (p q : Path) (e : Entry) (h : q ≠ p) :
    setEntry fs p e q = fs q := by
  simp [setEntry, h]

theorem rmTree_below (fs : FS) (p q : Path) (h : subpath p q = true) :
    rmTree fs p q = none := by
  simp [rmTree, h]

theorem rmTree_outside (fs : FS) (p q : Path) (h : subpath p q = false) :
    rmTree fs p q = fs q := by
  simp [rmTree, h]

theorem cpInto_target (fs : FS) (src dstDir : Path) (b : List Nat)
    (h : fs src = some (Entry.file b)) :
    cpInto fs src dstDir (dstDir ++ [src.getLastD ""]) = some (Entry.file b) := by
  simp [cpInto, h, setEntry]

theorem cpInto_other (fs : FS) (src dstDir q : Path)
    (h : q ≠ dstDir ++ [src.getLastD ""]) :
    cpInto fs src dstDir q = fs q := by
  unfold cpInto
  cases hs : fs src with
  | none => rfl
  | some e =>
    cases e with
    | dir => rfl
    | file b => exact setEntry_other _ _ _ _ h

theorem cpInto_nofile (fs : FS) (src dstDir : Path)
    (h : ∀ b, fs src ≠ some (Entry.file b)) :
    cpInto fs src dstDir = fs := by
  unfold cpInto
  cases hs : fs src with
  | none => rfl
  | some e =>
    cases e with
    | dir => rfl
    | file b => exact absurd hs (h b)

theorem subpath_length : ∀ p q : Path, subpath p q = true → p.length ≤ q.length
  | [], _, _ => Nat.zero_le _
  | a :: as, [], h => by simp [subpath] at h
  | a :: as, b :: bs, h => by
    simp only [subpath, Bool.and_eq_true] at h
    exact Nat.succ_le_succ (subpath_length as bs h.2)

/-- A path at or below `p` cannot equal a path shorter than `p`. -/
theorem under_ne (p q r : Path) (h : subpath p q = true) (hlen : r.length < p.length) :
    q ≠ r := by
  intro he
  have := subpath_length p q h
  rw [he] at this
  omega

end BasicLemmas

section PopulateLemmas

theorem popStep1_at (fs : FS) (q : Path) (h : q ≠ binDirPath) : popStep1 fs q = fs q := by
  unfold popStep1
  split
  · rfl
  · exact setEntry_other _ _ _ _ h

theorem popStep2_pres (fs : FS) (q : Path) (h1 : q ≠ binDirPath) (h2 : q ≠ binOtterPath) :
    popStep2 fs q = fs q := by
  unfold popStep2
  rw [cpInto_other _ _ _ _ h2]
  exact popStep1_at fs q h1

theorem popStep3_pres (fs : FS) (q : Path) (h1 : q ≠ binDirPath) (h2 : q ≠ binOtterPath)
    (h3 : q ≠ debControlPath) : popStep3 fs q = fs q := by
  unfold popStep3
  rw [cpInto_other _ _ _ _ h3]
  exact popStep2_pres fs q h1 h2

theorem popStep4_pres (fs : FS) (q : Path) (h1 : q ≠ binDirPath) (h2 : q ≠ binOtterPath)
    (h3 : q ≠ debControlPath) (h4 : q ≠ debChangelogPath) : popStep4 fs q = fs q := by
  unfold popStep4
  rw [cpInto_other _ _ _ _ h4]
  exact popStep3_pres fs q h1 h2 h3

theorem popStep5_pres (fs : FS) (q : Path) (h1 : q ≠ binDirPath) (h2 : q ≠ binOtterPath)
    (h3 : q ≠ debControlPath) (h4 : q ≠ debChangelogPath) (h5 : q ≠ debCopyrightPath) :
    popStep5 fs q = fs q := by
  unfold popStep5
  rw [cpInto_other _ _ _ _ h5]
  exact popStep4_pres fs q h1 h2 h3 h4

/-- The population step writes nothing outside its six target paths. -/
theorem populate_other (fs : FS) (q : Path) (h1 : q ≠ binDirPath) (h2 : q ≠ binOtterPath)
    (h3 : q ≠ debControlPath) (h4 : q ≠ debChangelogPath) (h5 : q ≠ debCopyrightPath)
    (h6 : q ≠ debRulesPath) : phase_populate fs q = fs q := by
  unfold phase_populate
  rw [cpInto_other _ _ _ _ h6]
  exact popStep5_pres fs q h1 h2 h3 h4 h5

/-- When the release binary is a file, population copies it verbatim to bin/otter. -/
theorem populate_binOtter (fs : FS) (b : List Nat)
    (h : fs otter_bin_path = some (Entry.file b)) :
    phase_populate fs binOtterPath = some (Entry.file b) := by
  unfold phase_populate
  rw [cpInto_other _ _ _ _ (by decide : binOtterPath ≠ debRulesPath)]
  unfold popStep5
  rw [cpInto_other _ _ _ _ (by decide : binOtterPath ≠ debCopyrightPath)]
  unfold popStep4
  rw [cpInto_other _ _ _ _ (by decide : binOtterPath ≠ debChangelogPath)]
  unfold popStep3
  rw [cpInto_other _ _ _ _ (by decide : binOtterPath ≠ debControlPath)]
  unfold popStep2
  have h1 : popStep1 fs otter_bin_path = some (Entry.file b) := by
    rw [popStep1_at fs _ (by decide)]
    exact h
  exact cpInto_target _ _ _ _ h1

/-- When bin is absent, population creates it as a directory. -/
theorem populate_binDir_of_none (fs : FS) (h : fs binDirPath = none) :
    phase_populate fs binDirPath = some Entry.dir := by
  unfold phase_populate
  rw [cpInto_other _ _ _ _ (by decide : binDirPath ≠ debRulesPath)]
  unfold popStep5
  rw [cpInto_other _ _ _ _ (by decide : binDirPath ≠ debCopyrightPath)]
  unfold popStep4
  rw [cpInto_other _ _ _ _ (by decide : binDirPath ≠ debChangelogPath)]
  unfold popStep3
  rw [cpInto_other _ _ _ _ (by decide : binDirPath ≠ debControlPath)]
  unfold popStep2
  rw [cpInto_other _ _ _ _ (by decide : binDirPath ≠ binOtterPath)]
  unfold popStep1
  rw [if_neg (by simp [pathExists, h])]
  exact setEntry_same _ _ _

theorem populate_control (fs : FS) (b : List Nat)
    (h : fs controlSrc = some (Entry.file b)) :
    phase_populate fs debControlPath = some (Entry.file b) := by
  unfold phase_populate
  rw [cpInto_other _ _ _ _ (by decide : debControlPath ≠ debRulesPath)]
  unfold popStep5
  rw [cpInto_other _ _ _ _ (by decide : debControlPath ≠ debCopyrightPath)]
  unfold popStep4
  rw [cpInto_other _ _ _ _ (by decide : debControlPath ≠ debChangelogPath)]
  unfold popStep3
  have h1 : popStep2 fs controlSrc = some (Entry.file b) := by
    rw [popStep2_pres fs _ (by decide) (by decide)]
    exact h
  exact cpInto_target _ _ _ _ h1

theorem populate_changelog (fs : FS) (b : List Nat)
    (h : fs changelogSrc = some (Entry.file b)) :
    phase_populate fs debChangelogPath = some (Entry.file b) := by
  unfold phase_populate
  rw [cpInto_other _ _ _ _ (by decide : debChangelogPath ≠ debRulesPath)]
  unfold popStep5
  rw [cpInto_other _ _ _ _ (by decide : debChangelogPath ≠ debCopyrightPath)]
  unfold popStep4
  have h1 : popStep3 fs changelogSrc = some (Entry.file b) := by
    rw [popStep3_pres fs _ (by decide) (by decide) (by decide)]
    exact h
  exact cpInto_target _ _ _ _ h1

theorem populate_copyright (fs : FS) (b : List Nat)
    (h : fs copyrightSrc = some (Entry.file b)) :
    phase_populate fs debCopyrightPath = some (Entry.file b) := by
  unfold phase_populate
  rw [cpInto_other _ _ _ _ (by decide : debCopyrightPath ≠ debRulesPath)]
  unfold popStep5
  have h1 : popStep4 fs copyrightSrc = some (Entry.file b) := by
    rw [popStep4_pres fs _ (by decide) (by decide) (by decide) (by decide)]
    exact h
  exact cpInto_target _ _ _ _ h1

theorem populate_rules (fs : FS) (b : List Nat)
    (h : fs rulesSrc = some (Entry.file b)) :
    phase_populate fs debRulesPath = some (Entry.file b) := by
  unfold phase_populate
  have h1 : popStep5 fs rulesSrc = some (Entry.file b) := by
    rw [popStep5_pres fs _ (by decide) (by decide) (by decide) (by decide) (by decide)]
    exact h
  exact cpInto_target _ _ _ _ h1

end PopulateLemmas

section ClearCreateLemmas

theorem clear_of_not_affirm (fs : FS) (resp : String) (h : affirm resp = false) :
    phase_clear fs resp = fs := by
  unfold phase_clear
  rw [if_neg]
  simp [h]

theorem clear_of_absent (fs : FS) (resp : String) (h : fs otter_deb_path = none) :
    phase_clear fs resp = fs := by
  unfold phase_clear
  rw [if_neg]
  simp [pathExists, h]

theorem clear_of_affirm (fs : FS) (resp : String) (h1 : (fs otter_deb_path).isSome = true)
    (h2 : affirm resp = true) : phase_clear fs resp = rmTree fs otter_deb_path := by
  unfold phase_clear
  rw [if_pos]
  simp [pathExists, h1, h2]

/-- Any single path is either kept or deleted by the clearing step. -/
theorem clear_cases (fs : FS) (resp : String) (q : Path) :
    phase_clear fs resp q = fs q ∨ phase_clear fs resp q = none := by
  unfold phase_clear
  split
  · unfold rmTree
    split
    · exact Or.inr rfl
    · exact Or.inl rfl
  · exact Or.inl rfl

theorem clear_outside (fs : FS) (resp : String) (q : Path)
    (h : subpath otter_deb_path q = false) : phase_clear fs resp q = fs q := by
  unfold phase_clear
  split
  · exact rmTree_outside _ _ _ h
  · rfl

theorem create_other (fs : FS) (q : Path) (h1 : q ≠ otter_deb_path)
    (h2 : q ≠ parentPath otter_deb_path) : phase_create fs q = fs q := by
  unfold phase_create
  split
  · rfl
  · unfold mkdirFS
    rw [setEntry_other _ _ _ _ h1]
    split
    · rfl
    · exact setEntry_other _ _ _ _ h2

theorem create_of_present (fs : FS) (h : (fs otter_deb_path).isSome = true) :
    phase_create fs = fs := by
  unfold phase_create
  rw [if_pos]
  simpa [pathExists] using h

theorem create_deb_of_absent (fs : FS) (h : fs otter_deb_path = none) :
    phase_create fs otter_deb_path = some Entry.dir := by
  unfold phase_create
  rw [if_neg (by simp [pathExists, h])]
  exact setEntry_same _ _ _

theorem create_parent_some (fs : FS) (h : fs otter_deb_path = none) :
    ((phase_create fs) (parentPath otter_deb_path)).isSome = true := by
  unfold phase_create
  rw [if_neg (by simp [pathExists, h])]
  unfold mkdirFS
  rw [setEntry_other _ _ _ _ (by decide : parentPath otter_deb_path ≠ otter_deb_path)]
  split
  · next hp => simpa [pathExists] using hp
  · rw [setEntry_same]
    rfl

/-- The clear and create steps together never change the release binary path. -/
theorem cc_bin (fs : FS) (resp : String) :
    phase_create (phase_clear fs resp) otter_bin_path = fs otter_bin_path := by
  rw [create_other _ _ (by decide) (by decide)]
  exact clear_outside _ _ _ (by decide)

/-- The clear and create steps change nothing outside the staging subtree and
its parent. -/
theorem cc_outside (fs : FS) (resp : String) (q : Path)
    (hq : subpath otter_deb_path q = false) (hp : q ≠ parentPath otter_deb_path) :
    phase_create (phase_clear fs resp) q = fs q := by
  have h1 : q ≠ otter_deb_path := by
    intro he
    rw [he] at hq
    exact absurd hq (by decide)
  rw [create_other _ _ h1 hp]
  exact clear_outside _ _ _ hq

end ClearCreateLemmas

section RunLemmas

theorem run_of_bin (fs : FS) (resp : String) (arch : FS → FS × Nat)
    (hbin : (fs otter_bin_path).isSome = true) :
    run fs resp arch =
      { fs := (arch (phase_populate (phase_create (phase_clear fs resp)))).1,
        output := if pathExists fs otter_deb_path then [willCreateMsg, promptMsg]
                  else [willCreateMsg],
        exitedEarly := false, exitStatus := 0, archiverInvoked := true } := by
  unfold run
  rw [if_pos]
  unfold pathExists
  rw [cc_bin]
  exact hbin

theorem run_of_nobin (fs : FS) (resp : String) (arch : FS → FS × Nat)
    (hbin : fs otter_bin_path = none) :
    run fs resp arch =
      { fs := phase_create (phase_clear fs resp),
        output := (if pathExists fs otter_deb_path then [willCreateMsg, promptMsg]
                   else [willCreateMsg]) ++ [missingMsg],
        exitedEarly := true, exitStatus := 0, archiverInvoked := false } := by
  unfold run
  rw [if_neg]
  unfold pathExists
  rw [cc_bin, hbin]
  simp

/-- Every run of the script finishes with exit status 0, since the only early
stop is a bare exit() call. -/
theorem run_status_zero (fs : FS) (resp : String) (arch : FS → FS × Nat) :
    (run fs resp arch).exitStatus = 0 := by
  unfold run
  split
  · rfl
  · rfl

/-- Outside the staging subtree, its parent and the archive output path, a run
changes nothing (given an archiver that only writes the output path). -/
theorem run_outside (fs : FS) (resp : String) (arch : FS → FS × Nat)
    (harch : ∀ f q, q ≠ outPath → (arch f).1 q = f q) (q : Path)
    (hq : subpath otter_deb_path q = false) (hp : q ≠ parentPath otter_deb_path)
    (ho : q ≠ outPath) : (run fs resp arch).fs q = fs q := by
  have htarget : ∀ r : Path, subpath otter_deb_path r = true → q ≠ r := by
    intro r hr he
    rw [he] at hq
    rw [hq] at hr
    exact absurd hr (by simp)
  unfold run
  split
  · show (arch (phase_populate (phase_create (phase_clear fs resp)))).1 q = fs q
    rw [harch _ _ ho]
    rw [populate_other _ _ (htarget _ (by decide)) (htarget _ (by decide))
      (htarget _ (by decide)) (htarget _ (by decide)) (htarget _ (by decide))
      (htarget _ (by decide))]
    exact cc_outside fs resp q hq hp
  · show phase_create (phase_clear fs resp) q = fs q
    exact cc_outside fs resp q hq hp

end RunLemmas

section AffirmLemmas

theorem toLower_data (s : String) : s.toLower.data = s.data.map Char.toLower := by
  rw [String.toLower, String.map_eq]

/-- The only characters whose basic-latin lowering is the letter y. -/
theorem char_toLower_eq_y (c : Char) : c.toLower = 'y' ↔ c = 'y' ∨ c = 'Y' := by
  constructor
  · intro h
    simp only [Char.toLower] at h
    split at h
    · next hc =>
      right
      have hc1 : 65 ≤ c.toNat := hc.1
      have hc2 : c.toNat ≤ 90 := hc.2
      have hofn := Char.ofNat_toNat c
      obtain ⟨n, hn⟩ : ∃ n, c.toNat = n := ⟨c.toNat, rfl⟩
      rw [hn] at hc1 hc2 hofn h
      interval_cases n <;>
        first
          | exact absurd h (by decide)
          | (rw [← hofn]; try decide)
    · exact Or.inl h
  · intro h
    rcases h with h | h <;> rw [h] <;> decide

theorem affirm_true_iff (resp : String) :
    affirm resp = true ↔ resp.data.map Char.toLower = ['y'] := by
  unfold affirm
  rw [beq_iff_eq, String.ext_iff, toLower_data]

/-- The affirmative test accepts exactly the two strings y and Y. -/
theorem affirm_iff (resp : String) : affirm resp = true ↔ resp = "y" ∨ resp = "Y" := by
  rw [affirm_true_iff]
  rw [@String.ext_iff resp "y", @String.ext_iff resp "Y"]
  show resp.data.map Char.toLower = ['y'] ↔ resp.data = ['y'] ∨ resp.data = ['Y']
  cases hd : resp.data with
  | nil => simp
  | cons c t =>
    cases t with
    | nil => simpa using char_toLower_eq_y c
    | cons c2 t2 => simp

theorem affirm_of_eval (resp : String) (h : resp.data.map Char.toLower = ['y']) :
    affirm resp = true := (affirm_true_iff resp).2 h

theorem affirm_false_of_eval (resp : String) (h : ¬resp.data.map Char.toLower = ['y']) :
    affirm resp = false := by
  cases ha : affirm resp with
  | false => rfl
  | true => exact absurd ((affirm_true_iff resp).1 ha) h

end AffirmLemmas

section StagedLemmas

/-- The result of a cp from a source entry into an empty slot. -/
def copyResult : Option Entry → Option Entry
  | some (Entry.file b) => some (Entry.file b)
  | _ => none

/-- The contents the staging subtree holds after population of an empty
staging directory, as a function of the source files. -/
def stagedAt (fs : FS) (q : Path) : Option Entry :=
  if q = otter_deb_path then some Entry.dir
  else if q = binDirPath then some Entry.dir
  else if q = binOtterPath then copyResult (fs otter_bin_path)
  else if q = debControlPath then copyResult (fs controlSrc)
  else if q = debChangelogPath then copyResult (fs changelogSrc)
  else if q = debCopyrightPath then copyResult (fs copyrightSrc)
  else if q = debRulesPath then copyResult (fs rulesSrc)
  else none

theorem stagedAt_congr (f g : FS) (hb : f otter_bin_path = g otter_bin_path)
    (h1 : f controlSrc = g controlSrc) (h2 : f changelogSrc = g changelogSrc)
    (h3 : f copyrightSrc = g copyrightSrc) (h4 : f rulesSrc = g rulesSrc) (q : Path) :
    stagedAt f q = stagedAt g q := by
  unfold stagedAt
  rw [hb, h1, h2, h3, h4]

theorem populate_binOtter_nofile (fs : FS)
    (hnf : ∀ b, fs otter_bin_path ≠ some (Entry.file b)) :
    phase_populate fs binOtterPath = fs binOtterPath := by
  unfold phase_populate
  rw [cpInto_other _ _ _ _ (by decide : binOtterPath ≠ debRulesPath)]
  unfold popStep5
  rw [cpInto_other _ _ _ _ (by decide : binOtterPath ≠ debCopyrightPath)]
  unfold popStep4
  rw [cpInto_other _ _ _ _ (by decide : binOtterPath ≠ debChangelogPath)]
  unfold popStep3
  rw [cpInto_other _ _ _ _ (by decide : binOtterPath ≠ debControlPath)]
  unfold popStep2
  have hsrc : ∀ b, popStep1 fs otter_bin_path ≠ some (Entry.file b) := by
    intro b
    rw [popStep1_at fs _ (by decide)]
    exact hnf b
  rw [cpInto_nofile _ _ _ hsrc]
  exact popStep1_at fs _ (by decide)

theorem populate_control_nofile (fs : FS)
    (hnf : ∀ b, fs controlSrc ≠ some (Entry.file b)) :
    phase_populate fs debControlPath = fs debControlPath := by
  unfold phase_populate
  rw [cpInto_other _ _ _ _ (by decide : debControlPath ≠ debRulesPath)]
  unfold popStep5
  rw [cpInto_other _ _ _ _ (by decide : debControlPath ≠ debCopyrightPath)]
  unfold popStep4
  rw [cpInto_other _ _ _ _ (by decide : debControlPath ≠ debChangelogPath)]
  unfold popStep3
  have hsrc : ∀ b, popStep2 fs controlSrc ≠ some (Entry.file b) := by
    intro b
    rw [popStep2_pres fs _ (by decide) (by decide)]
    exact hnf b
  rw [cpInto_nofile _ _ _ hsrc]
  exact popStep2_pres fs _ (by decide) (by decide)

theorem populate_changelog_nofile (fs : FS)
    (hnf : ∀ b, fs changelogSrc ≠ some (Entry.file b)) :
    phase_populate fs debChangelogPath = fs debChangelogPath := by
  unfold phase_populate
  rw [cpInto_other _ _ _ _ (by decide : debChangelogPath ≠ debRulesPath)]
  unfold popStep5
  rw [cpInto_other _ _ _ _ (by decide : debChangelogPath ≠ debCopyrightPath)]
  unfold popStep4
  have hsrc : ∀ b, popStep3 fs changelogSrc ≠ some (Entry.file b) := by
    intro b
    rw [popStep3_pres fs _ (by decide) (by decide) (by decide)]
    exact hnf b
  rw [cpInto_nofile _ _ _ hsrc]
  exact popStep3_pres fs _ (by decide) (by decide) (by decide)

theorem populate_copyright_nofile (fs : FS)
    (hnf : ∀ b, fs copyrightSrc ≠ some (Entry.file b)) :
    phase_populate fs debCopyrightPath = fs debCopyrightPath := by
  unfold phase_populate
  rw [cpInto_other _ _ _ _ (by decide : debCopyrightPath ≠ debRulesPath)]
  unfold popStep5
  have hsrc : ∀ b, popStep4 fs copyrightSrc ≠ some (Entry.file b) := by
    intro b
    rw [popStep4_pres fs _ (by decide) (by decide) (by decide) (by decide)]
    exact hnf b
  rw [cpInto_nofile _ _ _ hsrc]
  exact popStep4_pres fs _ (by decide) (by decide) (by decide) (by decide)

theorem populate_rules_nofile (fs : FS)
    (hnf : ∀ b, fs rulesSrc ≠ some (Entry.file b)) :
    phase_populate fs debRulesPath = fs debRulesPath := by
  unfold phase_populate
  have hsrc : ∀ b, popStep5 fs rulesSrc ≠ some (Entry.file b) := by
    intro b
    rw [popStep5_pres fs _ (by decide) (by decide) (by decide) (by decide) (by decide)]
    exact hnf b
  rw [cpInto_nofile _ _ _ hsrc]
  exact popStep5_pres fs _ (by decide) (by decide) (by decide) (by decide) (by decide)

/-- Populating an empty staging directory yields exactly the staged contents
determined by the source files. -/
theorem populate_empty_staged (fs : FS) (hdeb : fs otter_deb_path = some Entry.dir)
    (hemp : ∀ q, subpath otter_deb_path q = true → q ≠ otter_deb_path → fs q = none) :
    ∀ q, subpath otter_deb_path q = true → phase_populate fs q = stagedAt fs q := by
  intro q hq
  by_cases h1 : q = otter_deb_path
  · subst h1
    rw [populate_other _ _ (by decide) (by decide) (by decide) (by decide) (by decide)
      (by decide), hdeb]
    unfold stagedAt
    rw [if_pos rfl]
  by_cases h2 : q = binDirPath
  · subst h2
    rw [populate_binDir_of_none fs (hemp _ (by decide) (by decide))]
    unfold stagedAt
    rw [if_neg (by decide), if_pos rfl]
  by_cases h3 : q = binOtterPath
  · subst h3
    unfold stagedAt
    rw [if_neg (by decide), if_neg (by decide), if_pos rfl]
    cases hb : fs otter_bin_path with
    | some e =>
      cases e with
      | file b =>
        rw [populate_binOtter fs b hb]
        rfl
      | dir =>
        rw [populate_binOtter_nofile fs (by simp [hb])]
        rw [hemp _ (by decide) (by decide)]
        rfl
    | none =>
      rw [populate_binOtter_nofile fs (by simp [hb])]
      rw [hemp _ (by decide) (by decide)]
      rfl
  by_cases h4 : q = debControlPath
  · subst h4
    unfold stagedAt
    rw [if_neg (by decide), if_neg (by decide), if_neg (by decide), if_pos rfl]
    cases hb : fs controlSrc with
    | some e =>
      cases e with
      | file b =>
        rw [populate_control fs b hb]
        rfl
      | dir =>
        rw [populate_control_nofile fs (by simp [hb])]
        rw [hemp _ (by decide) (by decide)]
        rfl
    | none =>
      rw [populate_control_nofile fs (by simp [hb])]
      rw [hemp _ (by decide) (by decide)]
      rfl
  by_cases h5 : q = debChangelogPath
  · subst h5
    unfold stagedAt
    rw [if_neg (by decide), if_neg (by decide), if_neg (by decide), if_neg (by decide),
      if_pos rfl]
    cases hb : fs changelogSrc with
    | some e =>
      cases e with
      | file b =>
        rw [populate_changelog fs b hb]
        rfl
      | dir =>
        rw [populate_changelog_nofile fs (by simp [hb])]
        rw [hemp _ (by decide) (by decide)]
        rfl
    | none =>
      rw [populate_changelog_nofile fs (by simp [hb])]
      rw [hemp _ (by decide) (by decide)]
      rfl
  by_cases h6 : q = debCopyrightPath
  · subst h6
    unfold stagedAt
    rw [if_neg (by decide), if_neg (by decide), if_neg (by decide), if_neg (by decide),
      if_neg (by decide), if_pos rfl]
    cases hb : fs copyrightSrc with
    | some e =>
      cases e with
      | file b =>
        rw [populate_copyright fs b hb]
        rfl
      | dir =>
        rw [populate_copyright_nofile fs (by simp [hb])]
        rw [hemp _ (by decide) (by decide)]
        rfl
    | none =>
      rw [populate_copyright_nofile fs (by simp [hb])]
      rw [hemp _ (by decide) (by decide)]
      rfl
  by_cases h7 : q = debRulesPath
  · subst h7
    unfold stagedAt
    rw [if_neg (by decide), if_neg (by decide), if_neg (by decide), if_neg (by decide),
      if_neg (by decide), if_neg (by decide), if_pos rfl]
    cases hb : fs rulesSrc with
    | some e =>
      cases e with
      | file b =>
        rw [populate_rules fs b hb]
        rfl
      | dir =>
        rw [populate_rules_nofile fs (by simp [hb])]
        rw [hemp _ (by decide) (by decide)]
        rfl
    | none =>
      rw [populate_rules_nofile fs (by simp [hb])]
      rw [hemp _ (by decide) (by decide)]
      rfl
  · rw [populate_other _ _ h2 h3 h4 h5 h6 h7]
    rw [hemp _ hq h1]
    unfold stagedAt
    rw [if_neg h1, if_neg h2, if_neg h3, if_neg h4, if_neg h5, if_neg h6, if_neg h7]

/-- After the clear and create steps, if the prompt was answered affirmatively
or the staging area was wholly absent, the staging directory exists and is
empty. -/
theorem cc_empty (fs : FS) (resp : String)
    (h : (affirm resp = true ∧ (fs otter_deb_path).isSome = true) ∨
      (∀ q, subpath otter_deb_path q = true → fs q = none)) :
    phase_create (phase_clear fs resp) otter_deb_path = some Entry.dir ∧
    ∀ q, subpath otter_deb_path q = true → q ≠ otter_deb_path →
      phase_create (phase_clear fs resp) q = none := by
  rcases h with ⟨ha, he⟩ | hemp
  · rw [clear_of_affirm fs resp he ha]
    have hdebnone : rmTree fs otter_deb_path otter_deb_path = none :=
      rmTree_below _ _ _ (by decide)
    refine ⟨create_deb_of_absent _ hdebnone, ?_⟩
    intro q hq hne
    rw [create_other _ _ hne (under_ne _ _ _ hq (by decide))]
    exact rmTree_below _ _ _ hq
  · have hdebnone : fs otter_deb_path = none := hemp _ (by decide)
    rw [clear_of_absent fs resp hdebnone]
    refine ⟨create_deb_of_absent _ hdebnone, ?_⟩
    intro q hq hne
    rw [create_other _ _ hne (under_ne _ _ _ hq (by decide))]
    exact hemp _ hq

/-- A run whose prompt is answered affirmatively (or whose staging area was
wholly absent) leaves the staging subtree holding exactly the staged contents
determined by the source files of the starting state. -/
theorem run_staged (fs : FS) (resp : String) (arch : FS → FS × Nat)
    (hpre : (affirm resp = true ∧ (fs otter_deb_path).isSome = true) ∨
      (∀ q, subpath otter_deb_path q = true → fs q = none))
    (hbin : (fs otter_bin_path).isSome = true)
    (harch : ∀ f q, q ≠ outPath → (arch f).1 q = f q) :
    ∀ q, subpath otter_deb_path q = true → (run fs resp arch).fs q = stagedAt fs q := by
  intro q hq
  rw [run_of_bin fs resp arch hbin]
  show (arch (phase_populate (phase_create (phase_clear fs resp)))).1 q = stagedAt fs q
  rw [harch _ _ (under_ne _ _ _ hq (by decide))]
  obtain ⟨hdeb2, hemp2⟩ := cc_empty fs resp hpre
  rw [populate_empty_staged _ hdeb2 hemp2 q hq]
  exact stagedAt_congr _ _ (cc_bin fs resp)
    (cc_outside fs resp _ (by decide) (by decide))
    (cc_outside fs resp _ (by decide) (by decide))
    (cc_outside fs resp _ (by decide) (by decide))
    (cc_outside fs resp _ (by decide) (by decide)) q

end StagedLemmas

section ArchWitnessLemmas

theorem archOk_pres : ∀ f q, q ≠ outPath → (archOk f).1 q = f q :=
  fun f q hq => setEntry_other f outPath q (Entry.file [9]) hq

theorem archOk_out : ∀ f, ((archOk f).1 outPath).isSome = true := by
  intro f
  show (setEntry f outPath (Entry.file [9]) outPath).isSome = true
  rw [setEntry_same]
  rfl

end ArchWitnessLemmas

section Claims

/-- C1: starting from a state where the staging directory (and its bin
subdirectory) do not exist and the release binary and the four metadata source
files are present, the run terminates normally having produced the staging
directory containing bin/otter and the four metadata files, and having
produced the output archive file. -/
theorem C1 (fs : FS) (resp : String) (arch : FS → FS × Nat)
    (bb b1 b2 b3 b4 : List Nat)
    (hdeb : fs otter_deb_path = none)
    (hbindir : fs binDirPath = none)
    (hbin : fs otter_bin_path = some (Entry.file bb))
    (hc : fs controlSrc = some (Entry.file b1))
    (hch : fs changelogSrc = some (Entry.file b2))
    (hcp : fs copyrightSrc = some (Entry.file b3))
    (hr : fs rulesSrc = some (Entry.file b4))
    (harch : ∀ f q, q ≠ outPath → (arch f).1 q = f q)
    (hout : ∀ f, ((arch f).1 outPath).isSome = true) :
    (run fs resp arch).exitedEarly = false ∧
    (run fs resp arch).fs otter_deb_path = some Entry.dir ∧
    (run fs resp arch).fs binDirPath = some Entry.dir ∧
    (run fs resp arch).fs binOtterPath = some (Entry.file bb) ∧
    (run fs resp arch).fs debControlPath = some (Entry.file b1) ∧
    (run fs resp arch).fs debChangelogPath = some (Entry.file b2) ∧
    (run fs resp arch).fs debCopyrightPath = some (Entry.file b3) ∧
    (run fs resp arch).fs debRulesPath = some (Entry.file b4) ∧
    ((run fs resp arch).fs outPath).isSome = true := by
  have hbin' : (fs otter_bin_path).isSome = true := by rw [hbin]; rfl
  have hclear : phase_clear fs resp = fs := clear_of_absent fs resp hdeb
  rw [run_of_bin fs resp arch hbin']
  refine ⟨rfl, ?_, ?_, ?_, ?_, ?_, ?_, ?_, ?_⟩
  · show (arch (phase_populate (phase_create (phase_clear fs resp)))).1 otter_deb_path = _
    rw [hclear, harch _ _ (by decide)]
    rw [populate_other _ _ (by decide) (by decide) (by decide) (by decide) (by decide)
      (by decide)]
    exact create_deb_of_absent fs hdeb
  · show (arch (phase_populate (phase_create (phase_clear fs resp)))).1 binDirPath = _
    rw [hclear, harch _ _ (by decide)]
    apply populate_binDir_of_none
    rw [create_other _ _ (by decide) (by decide)]
    exact hbindir
  · show (arch (phase_populate (phase_create (phase_clear fs resp)))).1 binOtterPath = _
    rw [hclear, harch _ _ (by decide)]
    apply populate_binOtter
    rw [create_other _ _ (by decide) (by decide)]
    exact hbin
  · show (arch (phase_populate (phase_create (phase_clear fs resp)))).1 debControlPath = _
    rw [hclear, harch _ _ (by decide)]
    apply populate_control
    rw [create_other _ _ (by decide) (by decide)]
    exact hc
  · show (arch (phase_populate (phase_create (phase_clear fs resp)))).1 debChangelogPath = _
    rw [hclear, harch _ _ (by decide)]
    apply populate_changelog
    rw [create_other _ _ (by decide) (by decide)]
    exact hch
  · show (arch (phase_populate (phase_create (phase_clear fs resp)))).1 debCopyrightPath = _
    rw [hclear, harch _ _ (by decide)]
    apply populate_copyright
    rw [create_other _ _ (by decide) (by decide)]
    exact hcp
  · show (arch (phase_populate (phase_create (phase_clear fs resp)))).1 debRulesPath = _
    rw [hclear, harch _ _ (by decide)]
    apply populate_rules
    rw [create_other _ _ (by decide) (by decide)]
    exact hr
  · show ((arch (phase_populate (phase_create (phase_clear fs resp)))).1 outPath).isSome = _
    exact hout _

/-- C1 witness: the fresh concrete filesystem satisfies the hypotheses and the
run produces all the promised artifacts. -/
theorem C1_witness :
    fsFresh otter_deb_path = none ∧ fsFresh binDirPath = none ∧
    fsFresh otter_bin_path = some (Entry.file [7]) ∧
    fsFresh controlSrc = some (Entry.file [1]) ∧
    ((run fsFresh "n" archOk).exitedEarly = false ∧
      (run fsFresh "n" archOk).fs otter_deb_path = some Entry.dir ∧
      (run fsFresh "n" archOk).fs binDirPath = some Entry.dir ∧
      (run fsFresh "n" archOk).fs binOtterPath = some (Entry.file [7]) ∧
      (run fsFresh "n" archOk).fs debControlPath = some (Entry.file [1]) ∧
      (run fsFresh "n" archOk).fs debChangelogPath = some (Entry.file [2]) ∧
      (run fsFresh "n" archOk).fs debCopyrightPath = some (Entry.file [3]) ∧
      (run fsFresh "n" archOk).fs debRulesPath = some (Entry.file [4]) ∧
      ((run fsFresh "n" archOk).fs outPath).isSome = true) :=
  ⟨by decide, by decide, by decide, by decide,
    C1 fsFresh "n" archOk [7] [1] [2] [3] [4] (by decide) (by decide) (by decide)
      (by decide) (by decide) (by decide) (by decide) archOk_pres archOk_out⟩

/-- C2: when the release binary is absent the run reports the missing
artifact, performs no copy into bin (every path below bin is either untouched
or only deleted by the user-approved clearing), and never invokes the
archiver. -/
theorem C2 (fs : FS) (resp : String) (arch : FS → FS × Nat)
    (hmiss : fs otter_bin_path = none) :
    (run fs resp arch).archiverInvoked = false ∧
    (run fs resp arch).exitedEarly = true ∧
    missingMsg ∈ (run fs resp arch).output ∧
    ∀ q, subpath binDirPath q = true →
      (run fs resp arch).fs q = fs q ∨ (run fs resp arch).fs q = none := by
  rw [run_of_nobin fs resp arch hmiss]
  refine ⟨rfl, rfl, ?_, ?_⟩
  · show missingMsg ∈ (if pathExists fs otter_deb_path then [willCreateMsg, promptMsg]
      else [willCreateMsg]) ++ [missingMsg]
    simp
  · intro q hq
    show phase_create (phase_clear fs resp) q = fs q ∨
      phase_create (phase_clear fs resp) q = none
    rw [create_other _ _ (under_ne _ _ _ hq (by decide)) (under_ne _ _ _ hq (by decide))]
    exact clear_cases fs resp q

/-- C2 witness: on the empty filesystem the run stops early, reports the
missing binary and invokes no archiver. -/
theorem C2_witness :
    fsEmpty otter_bin_path = none ∧
    ((run fsEmpty "n" archOk).archiverInvoked = false ∧
      (run fsEmpty "n" archOk).exitedEarly = true ∧
      missingMsg ∈ (run fsEmpty "n" archOk).output ∧
      ∀ q, subpath binDirPath q = true →
        (run fsEmpty "n" archOk).fs q = fsEmpty q ∨
        (run fsEmpty "n" archOk).fs q = none) :=
  ⟨rfl, C2 fsEmpty "n" archOk rfl⟩

/-- C3: the exit status of the external archiver is never inspected: two
archivers with the same filesystem effect but arbitrary (different) exit
statuses yield identical runs, so a failing archive step goes unreported. -/
theorem C3 (fs : FS) (resp : String) (arch1 arch2 : FS → FS × Nat)
    (heff : ∀ f, (arch1 f).1 = (arch2 f).1) :
    run fs resp arch1 = run fs resp arch2 := by
  unfold run
  split
  · rw [heff]
  · rfl

/-- C3 witness: a succeeding archiver and a failing one with the same effect
give literally the same run outcome. -/
theorem C3_witness :
    (∀ f, (archOk f).1 = (archBad f).1) ∧ (archOk fsEmpty).2 ≠ (archBad fsEmpty).2 ∧
    run fsStale "n" archOk = run fsStale "n" archBad :=
  ⟨fun _ => rfl, by decide, C3 fsStale "n" archOk archBad (fun _ => rfl)⟩

/-- C4: when the staging directory already exists and the prompt answer is not
affirmative, the run leaves every path other than the six population targets
(and the archive output) untouched, yet still overwrites bin/otter and the
four metadata files. -/
theorem C4 (fs : FS) (resp : String) (arch : FS → FS × Nat)
    (bb b1 b2 b3 b4 : List Nat)
    (hex : (fs otter_deb_path).isSome = true)
    (hresp : affirm resp = false)
    (hbin : fs otter_bin_path = some (Entry.file bb))
    (hc : fs controlSrc = some (Entry.file b1))
    (hch : fs changelogSrc = some (Entry.file b2))
    (hcp : fs copyrightSrc = some (Entry.file b3))
    (hr : fs rulesSrc = some (Entry.file b4))
    (harch : ∀ f q, q ≠ outPath → (arch f).1 q = f q) :
    (∀ q, ¬q ∈ targetPaths → q ≠ outPath → (run fs resp arch).fs q = fs q) ∧
    (run fs resp arch).fs binOtterPath = some (Entry.file bb) ∧
    (run fs resp arch).fs debControlPath = some (Entry.file b1) ∧
    (run fs resp arch).fs debChangelogPath = some (Entry.file b2) ∧
    (run fs resp arch).fs debCopyrightPath = some (Entry.file b3) ∧
    (run fs resp arch).fs debRulesPath = some (Entry.file b4) := by
  have hbin' : (fs otter_bin_path).isSome = true := by rw [hbin]; rfl
  have hcc : phase_create (phase_clear fs resp) = fs := by
    rw [clear_of_not_affirm fs resp hresp]
    exact create_of_present fs hex
  rw [run_of_bin fs resp arch hbin']
  refine ⟨?_, ?_, ?_, ?_, ?_, ?_⟩
  · intro q hq hqo
    show (arch (phase_populate (phase_create (phase_clear fs resp)))).1 q = fs q
    rw [hcc, harch _ _ hqo]
    simp only [targetPaths, List.mem_cons, List.not_mem_nil, or_false, not_or] at hq
    exact populate_other _ _ hq.1 hq.2.1 hq.2.2.1 hq.2.2.2.1 hq.2.2.2.2.1 hq.2.2.2.2.2
  · show (arch (phase_populate (phase_create (phase_clear fs resp)))).1 binOtterPath = _
    rw [hcc, harch _ _ (by decide)]
    exact populate_binOtter fs bb hbin
  · show (arch (phase_populate (phase_create (phase_clear fs resp)))).1 debControlPath = _
    rw [hcc, harch _ _ (by decide)]
    exact populate_control fs b1 hc
  · show (arch (phase_populate (phase_create (phase_clear fs resp)))).1 debChangelogPath = _
    rw [hcc, harch _ _ (by decide)]
    exact populate_changelog fs b2 hch
  · show (arch (phase_populate (phase_create (phase_clear fs resp)))).1 debCopyrightPath = _
    rw [hcc, harch _ _ (by decide)]
    exact populate_copyright fs b3 hcp
  · show (arch (phase_populate (phase_create (phase_clear fs resp)))).1 debRulesPath = _
    rw [hcc, harch _ _ (by decide)]
    exact populate_rules fs b4 hr

/-- C4 witness: declining the prompt on a populated stale state keeps the
stale file yet overwrites bin/otter with the fresh binary bytes. -/
theorem C4_witness :
    (fsStale otter_deb_path).isSome = true ∧
    fsStale (otter_deb_path ++ ["stale"]) = some (Entry.file [5]) ∧
    fsStale binOtterPath = some (Entry.file [6]) ∧
    ((∀ q, ¬q ∈ targetPaths → q ≠ outPath →
        (run fsStale "n" archOk).fs q = fsStale q) ∧
      (run fsStale "n" archOk).fs binOtterPath = some (Entry.file [7]) ∧
      (run fsStale "n" archOk).fs debControlPath = some (Entry.file [1]) ∧
      (run fsStale "n" archOk).fs debChangelogPath = some (Entry.file [2]) ∧
      (run fsStale "n" archOk).fs debCopyrightPath = some (Entry.file [3]) ∧
      (run fsStale "n" archOk).fs debRulesPath = some (Entry.file [4])) ∧
    (run fsStale "n" archOk).fs (otter_deb_path ++ ["stale"]) = some (Entry.file [5]) := by
  have hmain := C4 fsStale "n" archOk [7] [1] [2] [3] [4] (by decide)
    (affirm_false_of_eval "n" (by decide)) (by decide) (by decide) (by decide)
    (by decide) (by decide) archOk_pres
  refine ⟨by decide, by decide, by decide, hmain, ?_⟩
  rw [hmain.1 (otter_deb_path ++ ["stale"]) (by decide) (by decide)]
  decide

/-- C5: when the staging directory exists and the prompt answer is
affirmative, the clearing step is exactly a recursive delete, after which the
create step remakes the staging directory (with its parent present) empty
before any population. -/
theorem C5 (fs : FS) (resp : String)
    (hex : (fs otter_deb_path).isSome = true) (haff : affirm resp = true) :
    phase_clear fs resp = rmTree fs otter_deb_path ∧
    phase_create (phase_clear fs resp) otter_deb_path = some Entry.dir ∧
    ((phase_create (phase_clear fs resp)) (parentPath otter_deb_path)).isSome = true ∧
    ∀ q, subpath otter_deb_path q = true → q ≠ otter_deb_path →
      phase_create (phase_clear fs resp) q = none := by
  obtain ⟨hdeb, hemp⟩ := cc_empty fs resp (Or.inl ⟨haff, hex⟩)
  refine ⟨clear_of_affirm fs resp hex haff, hdeb, ?_, hemp⟩
  rw [clear_of_affirm fs resp hex haff]
  exact create_parent_some _ (rmTree_below _ _ _ (by decide))

/-- C5 witness: accepting the prompt on the stale state deletes and remakes
the staging directory empty; in particular the stale file is gone. -/
theorem C5_witness :
    (fsStale otter_deb_path).isSome = true ∧
    (phase_clear fsStale "y" = rmTree fsStale otter_deb_path ∧
      phase_create (phase_clear fsStale "y") otter_deb_path = some Entry.dir ∧
      ((phase_create (phase_clear fsStale "y")) (parentPath otter_deb_path)).isSome = true ∧
      ∀ q, subpath otter_deb_path q = true → q ≠ otter_deb_path →
        phase_create (phase_clear fsStale "y") q = none) :=
  ⟨by decide, C5 fsStale "y" (by decide) (affirm_of_eval "y" (by decide))⟩

/-- C6: running the full sequence twice, answering the clear prompt
affirmatively each time, leaves the staging subtree identical after the second
run to what it was after the first (idempotent end state). -/
theorem C6 (fs0 : FS) (resp1 resp2 : String) (arch : FS → FS × Nat)
    (h1 : affirm resp1 = true) (h2 : affirm resp2 = true)
    (hwf : (fs0 otter_deb_path).isSome = true ∨
      (∀ q, subpath otter_deb_path q = true → fs0 q = none))
    (hbin : (fs0 otter_bin_path).isSome = true)
    (harch : ∀ f q, q ≠ outPath → (arch f).1 q = f q) :
    ∀ q, subpath otter_deb_path q = true →
      (run ((run fs0 resp1 arch).fs) resp2 arch).fs q = (run fs0 resp1 arch).fs q := by
  intro q hq
  have hpre1 : (affirm resp1 = true ∧ (fs0 otter_deb_path).isSome = true) ∨
      (∀ r, subpath otter_deb_path r = true → fs0 r = none) := by
    rcases hwf with hw | hw
    · exact Or.inl ⟨h1, hw⟩
    · exact Or.inr hw
  have hstage1 : ∀ r, subpath otter_deb_path r = true →
      (run fs0 resp1 arch).fs r = stagedAt fs0 r :=
    run_staged fs0 resp1 arch hpre1 hbin harch
  have hsrc : ∀ s : Path, subpath otter_deb_path s = false →
      s ≠ parentPath otter_deb_path → s ≠ outPath →
      (run fs0 resp1 arch).fs s = fs0 s :=
    fun s hs hp ho => run_outside fs0 resp1 arch harch s hs hp ho
  have hbinA : (run fs0 resp1 arch).fs otter_bin_path = fs0 otter_bin_path :=
    hsrc _ (by decide) (by decide) (by decide)
  have hdebA : ((run fs0 resp1 arch).fs otter_deb_path).isSome = true := by
    rw [hstage1 _ (by decide)]
    unfold stagedAt
    rw [if_pos rfl]
    rfl
  have hbinA2 : ((run fs0 resp1 arch).fs otter_bin_path).isSome = true := by
    rw [hbinA]
    exact hbin
  have hstage2 := run_staged ((run fs0 resp1 arch).fs) resp2 arch
    (Or.inl ⟨h2, hdebA⟩) hbinA2 harch q hq
  rw [hstage2, hstage1 q hq]
  exact stagedAt_congr _ _ hbinA
    (hsrc _ (by decide) (by decide) (by decide))
    (hsrc _ (by decide) (by decide) (by decide))
    (hsrc _ (by decide) (by decide) (by decide))
    (hsrc _ (by decide) (by decide) (by decide)) q

/-- C6 witness: two consecutive accepted-clear runs from the stale state agree
on the whole staging subtree. -/
theorem C6_witness :
    affirm "y" = true ∧ affirm "Y" = true ∧
    (fsStale otter_deb_path).isSome = true ∧
    (fsStale otter_bin_path).isSome = true ∧
    ∀ q, subpath otter_deb_path q = true →
      (run ((run fsStale "y" archOk).fs) "Y" archOk).fs q =
        (run fsStale "y" archOk).fs q :=
  ⟨affirm_of_eval "y" (by decide), affirm_of_eval "Y" (by decide), by decide, by decide,
    C6 fsStale "y" "Y" archOk (affirm_of_eval "y" (by decide))
      (affirm_of_eval "Y" (by decide)) (Or.inl (by decide)) (by decide) archOk_pres⟩

/-- C7: in any run that reaches population, each of the four metadata files is
copied verbatim into the staging directory, overwriting whatever was there. -/
theorem C7 (fs : FS) (resp : String) (arch : FS → FS × Nat)
    (b1 b2 b3 b4 : List Nat)
    (hbin : (fs otter_bin_path).isSome = true)
    (hc : fs controlSrc = some (Entry.file b1))
    (hch : fs changelogSrc = some (Entry.file b2))
    (hcp : fs copyrightSrc = some (Entry.file b3))
    (hr : fs rulesSrc = some (Entry.file b4))
    (harch : ∀ f q, q ≠ outPath → (arch f).1 q = f q) :
    (run fs resp arch).fs debControlPath = some (Entry.file b1) ∧
    (run fs resp arch).fs debChangelogPath = some (Entry.file b2) ∧
    (run fs resp arch).fs debCopyrightPath = some (Entry.file b3) ∧
    (run fs resp arch).fs debRulesPath = some (Entry.file b4) := by
  rw [run_of_bin fs resp arch hbin]
  refine ⟨?_, ?_, ?_, ?_⟩
  · show (arch (phase_populate (phase_create (phase_clear fs resp)))).1 debControlPath = _
    rw [harch _ _ (by decide)]
    apply populate_control
    rw [cc_outside fs resp _ (by decide) (by decide)]
    exact hc
  · show (arch (phase_populate (phase_create (phase_clear fs resp)))).1 debChangelogPath = _
    rw [harch _ _ (by decide)]
    apply populate_changelog
    rw [cc_outside fs resp _ (by decide) (by decide)]
    exact hch
  · show (arch (phase_populate (phase_create (phase_clear fs resp)))).1 debCopyrightPath = _
    rw [harch _ _ (by decide)]
    apply populate_copyright
    rw [cc_outside fs resp _ (by decide) (by decide)]
    exact hcp
  · show (arch (phase_populate (phase_create (phase_clear fs resp)))).1 debRulesPath = _
    rw [harch _ _ (by decide)]
    apply populate_rules
    rw [cc_outside fs resp _ (by decide) (by decide)]
    exact hr

/-- C7 witness: in the stale state the metadata targets end up with exactly
the source bytes. -/
theorem C7_witness :
    (fsStale otter_bin_path).isSome = true ∧
    fsStale controlSrc = some (Entry.file [1]) ∧
    ((run fsStale "n" archOk).fs debControlPath = some (Entry.file [1]) ∧
      (run fsStale "n" archOk).fs debChangelogPath = some (Entry.file [2]) ∧
      (run fsStale "n" archOk).fs debCopyrightPath = some (Entry.file [3]) ∧
      (run fsStale "n" archOk).fs debRulesPath = some (Entry.file [4])) :=
  ⟨by decide, by decide,
    C7 fsStale "n" archOk [1] [2] [3] [4] (by decide) (by decide) (by decide)
      (by decide) (by decide) archOk_pres⟩

/-- C8: the operation is not transactional: when the staging directory is
created (or cleared and recreated) and the binary is then found missing, the
created directory persists after the early stop. -/
theorem C8 (fs : FS) (resp : String) (arch : FS → FS × Nat)
    (hpre : fs otter_deb_path = none ∨ affirm resp = true)
    (hmiss : fs otter_bin_path = none) :
    (run fs resp arch).fs otter_deb_path = some Entry.dir ∧
    (run fs resp arch).exitedEarly = true ∧
    (run fs resp arch).archiverInvoked = false := by
  rw [run_of_nobin fs resp arch hmiss]
  refine ⟨?_, rfl, rfl⟩
  show phase_create (phase_clear fs resp) otter_deb_path = some Entry.dir
  rcases hpre with hd | ha
  · rw [clear_of_absent fs resp hd]
    exact create_deb_of_absent fs hd
  · cases hde : fs otter_deb_path with
    | none =>
      rw [clear_of_absent fs resp hde]
      exact create_deb_of_absent fs hde
    | some e =>
      have hs : (fs otter_deb_path).isSome = true := by rw [hde]; rfl
      rw [clear_of_affirm fs resp hs ha]
      exact create_deb_of_absent _ (rmTree_below _ _ _ (by decide))

/-- C8 witness: on the empty filesystem the run stops on the missing binary
but the staging directory it created is still present. -/
theorem C8_witness :
    fsEmpty otter_bin_path = none ∧ fsEmpty otter_deb_path = none ∧
    ((run fsEmpty "n" archOk).fs otter_deb_path = some Entry.dir ∧
      (run fsEmpty "n" archOk).exitedEarly = true ∧
      (run fsEmpty "n" archOk).archiverInvoked = false) :=
  ⟨rfl, rfl, C8 fsEmpty "n" archOk (Or.inl rfl) rfl⟩

/-- C9: the only prompt responses treated as affirmative are exactly the
strings y and Y; any other response leaves the clearing step a no-op. -/
theorem C9 (resp : String) :
    (affirm resp = true ↔ resp = "y" ∨ resp = "Y") ∧
    (resp ≠ "y" → resp ≠ "Y" → ∀ fs : FS, phase_clear fs resp = fs) := by
  refine ⟨affirm_iff resp, ?_⟩
  intro hy hY fs
  apply clear_of_not_affirm
  cases ha : affirm resp with
  | false => rfl
  | true =>
    rcases (affirm_iff resp).1 ha with h | h
    · exact absurd h hy
    · exact absurd h hY

/-- C9 witness: the response yes is not affirmative and clears nothing, even
with the staging directory present. -/
theorem C9_witness :
    (affirm "yes" = true ↔ "yes" = "y" ∨ "yes" = "Y") ∧
    phase_clear fsStale "yes" = fsStale :=
  ⟨(C9 "yes").1, (C9 "yes").2 (by decide) (by decide) fsStale⟩

/-- C10: the missing-binary stop exits with status 0, the same status as every
other run, so it is distinguishable from success only by the printed
message. -/
theorem C10 (fs : FS) (resp : String) (arch : FS → FS × Nat)
    (hmiss : fs otter_bin_path = none) :
    (run fs resp arch).exitStatus = 0 ∧
    (run fs resp arch).exitedEarly = true ∧
    missingMsg ∈ (run fs resp arch).output ∧
    (∀ (fs2 : FS) (r2 : String) (a2 : FS → FS × Nat),
      (run fs2 r2 a2).exitStatus = (run fs resp arch).exitStatus) ∧
    (∀ (fs2 : FS) (r2 : String) (a2 : FS → FS × Nat),
      (fs2 otter_bin_path).isSome = true → ¬missingMsg ∈ (run fs2 r2 a2).output) := by
  refine ⟨run_status_zero fs resp arch, ?_, ?_, ?_, ?_⟩
  · rw [run_of_nobin fs resp arch hmiss]
  · rw [run_of_nobin fs resp arch hmiss]
    show missingMsg ∈ (if pathExists fs otter_deb_path then [willCreateMsg, promptMsg]
      else [willCreateMsg]) ++ [missingMsg]
    simp
  · intro fs2 r2 a2
    rw [run_status_zero, run_status_zero]
  · intro fs2 r2 a2 hb
    rw [run_of_bin fs2 r2 a2 hb]
    show ¬missingMsg ∈ (if pathExists fs2 otter_deb_path then [willCreateMsg, promptMsg]
      else [willCreateMsg])
    split
    · decide
    · decide

/-- C10 witness: the missing-binary run on the empty filesystem exits with
status 0 and reports only through its message. -/
theorem C10_witness :
    fsEmpty otter_bin_path = none ∧
    ((run fsEmpty "q" archOk).exitStatus = 0 ∧
      (run fsEmpty "q" archOk).exitedEarly = true ∧
      missingMsg ∈ (run fsEmpty "q" archOk).output ∧
      (∀ (fs2 : FS) (r2 : String) (a2 : FS → FS × Nat),
        (run fs2 r2 a2).exitStatus = (run fsEmpty "q" archOk).exitStatus) ∧
      (∀ (fs2 : FS) (r2 : String) (a2 : FS → FS × Nat),
        (fs2 otter_bin_path).isSome = true →
          ¬missingMsg ∈ (run fs2 r2 a2).output)) :=
  ⟨rfl, C10 fsEmpty "q" archOk rfl⟩

end Claims

end OtterPkg
